import Mathlib

/-!
Verification of the billing-state reconciliation core of the SAAS_Dashboard
repository: the Stripe webhook handlers (`server/src/routes/webhooks.ts`,
given as `src/unnamed/part_001`) and the subscription lifecycle endpoints
(`server/src/routes/subscriptions.ts`, given as `src/unnamed/part_004`),
shallowly embedded over the Prisma data model of `schema.prisma`.

Modelling choices:
- `DateTime` values are `Int` milliseconds; the source's `new Date(x * 1000)`
  becomes `x * 1000`.
- Each `prisma.*.create` / `update` call is one operation; a call can throw
  (a unique-constraint violation — `stripePaymentId` and
  `stripeSubscriptionId` are `@unique` in `schema.prisma` — or an injected
  storage fault given by a `WriteFaults` record), modelled as `Option`.
  A `try { ... } catch` block that swallows the error keeps the effects of
  the calls that completed before the throw, exactly as independent Prisma
  calls do without a `$transaction`.
- Each outbound Stripe call either succeeds (its result supplied as a
  parameter) or fails, controlled by a `StripeFaults` record.
-/

namespace SaaS

inductive SubscriptionStatus where
  | ACTIVE
  | CANCELED
  | INCOMPLETE
  | INCOMPLETE_EXPIRED
  | PAST_DUE
  | TRIALING
  | UNPAID
deriving DecidableEq, Repr

inductive PaymentStatus where
  | SUCCEEDED
  | PENDING
  | FAILED
  | CANCELED
  | REFUNDED
deriving DecidableEq, Repr

/-- `model User` of `schema.prisma` (fields the billing core reads/writes). -/
structure User where
  id : String
  email : String
  firstName : String
  lastName : String
  stripeCustomerId : Option String
  companyId : Option String
deriving DecidableEq, Repr

/-- `model Plan` of `schema.prisma` (fields the billing core reads). -/
structure Plan where
  id : String
  name : String
  stripePriceId : String
  amount : Int
  isActive : Bool
deriving DecidableEq, Repr

/-- `model Subscription` of `schema.prisma`. -/
structure Subscription where
  id : String
  stripeSubscriptionId : String
  status : SubscriptionStatus
  priceId : String
  currentPeriodStart : Int
  currentPeriodEnd : Int
  cancelAtPeriodEnd : Bool
  canceledAt : Option Int
  trialStart : Option Int
  trialEnd : Option Int
  userId : String
  companyId : Option String
  planId : String
deriving DecidableEq, Repr

/-- `model Payment` of `schema.prisma`. -/
structure Payment where
  stripePaymentId : String
  amount : Int
  currency : String
  status : PaymentStatus
  description : String
  receiptUrl : Option String
  userId : String
  subscriptionId : Option String
deriving DecidableEq, Repr

/-- `model UserActivity` of `schema.prisma`; the Json `metadata` column is
projected onto the fields the handlers actually write. -/
structure UserActivity where
  userId : String
  action : String
  description : String
  metaPaymentId : Option String := none
  metaAmount : Option Int := none
  metaCurrency : Option String := none
  metaSubscriptionId : Option String := none
  metaPlanId : Option String := none
  metaCancelAtPeriodEnd : Option Bool := none
deriving DecidableEq, Repr

/-- The persistent store the billing core reads and writes. -/
structure DB where
  users : List User
  plans : List Plan
  subscriptions : List Subscription
  payments : List Payment
  activities : List UserActivity
deriving DecidableEq, Repr

/-- Injected storage faults: `true` makes the corresponding Prisma write
throw. `noWriteFaults` is the fault-free run. -/
structure WriteFaults where
  paymentCreate : Bool
  activityCreate : Bool
  subscriptionUpdate : Bool
  subscriptionCreate : Bool
  userUpdate : Bool
deriving DecidableEq, Repr

def noWriteFaults : WriteFaults :=
  { paymentCreate := false, activityCreate := false, subscriptionUpdate := false,
    subscriptionCreate := false, userUpdate := false }

/-- Injected outbound Stripe-call faults: `true` makes the call reject. -/
structure StripeFaults where
  customersCreate : Bool
  paymentMethodsAttach : Bool
  customersUpdate : Bool
  subscriptionsCreate : Bool
  subscriptionsUpdate : Bool
  subscriptionsCancel : Bool
deriving DecidableEq, Repr

def noStripeFaults : StripeFaults :=
  { customersCreate := false, paymentMethodsAttach := false, customersUpdate := false,
    subscriptionsCreate := false, subscriptionsUpdate := false, subscriptionsCancel := false }

/-- `prisma.subscription.findUnique({ where: { stripeSubscriptionId } })`. -/
def findSubByStripeId : List Subscription → String → Option Subscription
  | [], _ => none
  | s :: rest, ref => if s.stripeSubscriptionId = ref then some s else findSubByStripeId rest ref

/-- `prisma.subscription.findFirst({ where: { id, userId } })`. -/
def findFirstSubByIdUser : List Subscription → String → String → Option Subscription
  | [], _, _ => none
  | s :: rest, sid, uid =>
    if s.id = sid ∧ s.userId = uid then some s else findFirstSubByIdUser rest sid uid

/-- Lookup of a subscription row by its internal primary key. -/
def findSubByInternalId : List Subscription → String → Option Subscription
  | [], _ => none
  | s :: rest, sid => if s.id = sid then some s else findSubByInternalId rest sid

/-- Lookup of a payment row by its external (unique) reference; this is the
check the `@unique` constraint on `stripePaymentId` performs on insert. -/
def findPaymentByStripeId : List Payment → String → Option Payment
  | [], _ => none
  | p :: rest, ref => if p.stripePaymentId = ref then some p else findPaymentByStripeId rest ref

/-- Lookup of a user row by primary key. -/
def findUserById : List User → String → Option User
  | [], _ => none
  | u :: rest, uid => if u.id = uid then some u else findUserById rest uid

/-- `prisma.plan.findUnique({ where: { id: planId } })`. -/
def findPlanById : List Plan → String → Option Plan
  | [], _ => none
  | p :: rest, pid => if p.id = pid then some p else findPlanById rest pid

/-- Row rewrite underlying `prisma.subscription.update({ where: { id } })`:
the matching row is replaced, every other row is untouched. -/
def updateSubsByInternalId : List Subscription → String → (Subscription → Subscription) →
    List Subscription
  | [], _, _ => []
  | s :: rest, sid, f =>
    (if s.id = sid then f s else s) :: updateSubsByInternalId rest sid f

/-- Row rewrite underlying
`prisma.subscription.update({ where: { stripeSubscriptionId } })`. -/
def updateSubsByStripeId : List Subscription → String → (Subscription → Subscription) →
    List Subscription
  | [], _, _ => []
  | s :: rest, ref, f =>
    (if s.stripeSubscriptionId = ref then f s else s) :: updateSubsByStripeId rest ref f

/-- `prisma.payment.create`: throws on an injected fault or when the
`@unique` constraint on `stripePaymentId` is violated. -/
def paymentCreate (db : DB) (fault : Bool) (p : Payment) : Option DB :=
  if fault then none
  else if (findPaymentByStripeId db.payments p.stripePaymentId).isSome then none
  else some { db with payments := db.payments ++ [p] }

/-- `prisma.subscription.create`: throws on an injected fault or when the
`@unique` constraint on `stripeSubscriptionId` is violated. -/
def subscriptionCreate (db : DB) (fault : Bool) (s : Subscription) : Option DB :=
  if fault then none
  else if (findSubByStripeId db.subscriptions s.stripeSubscriptionId).isSome then none
  else some { db with subscriptions := db.subscriptions ++ [s] }

/-- `prisma.userActivity.create`: throws only on an injected fault. -/
def activityCreate (db : DB) (fault : Bool) (a : UserActivity) : Option DB :=
  if fault then none else some { db with activities := db.activities ++ [a] }

/-- `prisma.subscription.update({ where: { id } })`: throws on an injected
fault or when no row has that id; returns the updated row. -/
def subscriptionUpdateById (db : DB) (fault : Bool) (sid : String)
    (f : Subscription → Subscription) : Option (DB × Subscription) :=
  if fault then none
  else
    match findSubByInternalId db.subscriptions sid with
    | none => none
    | some s =>
      some ({ db with subscriptions := updateSubsByInternalId db.subscriptions sid f }, f s)

/-- `prisma.subscription.update({ where: { stripeSubscriptionId } })`. -/
def subscriptionUpdateByStripeId (db : DB) (fault : Bool) (ref : String)
    (f : Subscription → Subscription) : Option (DB × Subscription) :=
  if fault then none
  else
    match findSubByStripeId db.subscriptions ref with
    | none => none
    | some s =>
      some ({ db with subscriptions := updateSubsByStripeId db.subscriptions ref f }, f s)

/-- `prisma.user.update({ where: { id } })`: throws on an injected fault or
when no row has that id. -/
def userUpdate (db : DB) (fault : Bool) (uid : String) (f : User → User) : Option DB :=
  if fault then none
  else if (findUserById db.users uid).isSome then
    some { db with users := db.users.map fun u => if u.id = uid then f u else u }
  else none

/-- The fields of a `Stripe.Subscription` event object that
`handleSubscriptionUpdate` reads (Unix-second timestamps, as Stripe sends). -/
structure StripeSubscription where
  id : String
  status : SubscriptionStatus
  current_period_start : Int
  current_period_end : Int
  cancel_at_period_end : Bool
  canceled_at : Option Int
  trial_start : Option Int
  trial_end : Option Int
deriving DecidableEq, Repr

/-- The fields of a `Stripe.Invoice` event object that the payment handlers
read. `payment_intent` is the result of the source's  `as string` cast; the
empty string stands for a JavaScript-falsy value. -/
structure Invoice where
  subscription : Option String
  payment_intent : String
  amount_paid : Int
  amount_due : Int
  currency : String
  description : Option String
  hosted_invoice_url : Option String
deriving DecidableEq, Repr

/-- The fields of a `Stripe.Customer` event object `handleCustomerCreated`
reads. -/
structure StripeCustomer where
  id : String
  metadataUserId : Option String
deriving DecidableEq, Repr

/-- The field overwrite of `handleSubscriptionUpdate` (webhooks lines 71-79):
status, period bounds, cancel flag, canceled-at and trial bounds are taken
unconditionally from the event object. -/
def applySnapshotFields (snap : StripeSubscription) (s : Subscription) : Subscription :=
  { s with
    status := snap.status
    currentPeriodStart := snap.current_period_start * 1000
    currentPeriodEnd := snap.current_period_end * 1000
    cancelAtPeriodEnd := snap.cancel_at_period_end
    canceledAt := snap.canceled_at.map (· * 1000)
    trialStart := snap.trial_start.map (· * 1000)
    trialEnd := snap.trial_end.map (· * 1000) }

/-- `handleSubscriptionUpdate` (webhooks lines 62-87): find the subscription
by external reference; if absent do nothing; if present overwrite the
snapshot fields. The whole body is wrapped in a `try/catch` that logs and
swallows, so a throwing write leaves the store as it was. -/
def handleSubscriptionUpdate (wf : WriteFaults) (db : DB) (snap : StripeSubscription) : DB :=
  match findSubByStripeId db.subscriptions snap.id with
  | none => db
  | some _ =>
    match subscriptionUpdateByStripeId db wf.subscriptionUpdate snap.id (applySnapshotFields snap) with
    | none => db
    | some (db2, _) => db2

/-- `handleSubscriptionDeleted` (webhooks lines 89-103): set status CANCELED
and canceled-at now; errors (including a missing row) are swallowed. -/
def handleSubscriptionDeleted (wf : WriteFaults) (now : Int) (db : DB)
    (snap : StripeSubscription) : DB :=
  match subscriptionUpdateByStripeId db wf.subscriptionUpdate snap.id
      (fun s => { s with status := SubscriptionStatus.CANCELED, canceledAt := some now }) with
  | none => db
  | some (db2, _) => db2

/-- The Payment row `handlePaymentSucceeded` creates (webhooks lines 114-125). -/
def succeededPaymentOf (inv : Invoice) (sub : Subscription) : Payment :=
  { stripePaymentId := inv.payment_intent
    amount := inv.amount_paid
    currency := inv.currency
    status := PaymentStatus.SUCCEEDED
    description := inv.description.getD "Subscription payment"
    receiptUrl := inv.hosted_invoice_url
    userId := sub.userId
    subscriptionId := some sub.id }

/-- The UserActivity row `handlePaymentSucceeded` creates (lines 128-139). -/
def succeededActivityOf (inv : Invoice) (sub : Subscription) : UserActivity :=
  { userId := sub.userId
    action := "PAYMENT_SUCCEEDED"
    description := "Payment succeeded for amount: " ++ toString (inv.amount_paid / 100)
      ++ " " ++ inv.currency.toUpper
    metaPaymentId := some inv.payment_intent
    metaAmount := some inv.amount_paid
    metaCurrency := some inv.currency }

/-- `handlePaymentSucceeded` (webhooks lines 105-151): if the invoice names a
subscription and a local row matches it, create the Payment and then the
UserActivity; each write that throws is caught by the surrounding
`try/catch`, keeping whatever was already committed. -/
def handlePaymentSucceeded (wf : WriteFaults) (db : DB) (inv : Invoice) : DB :=
  match inv.subscription with
  | none => db
  | some subRef =>
    match findSubByStripeId db.subscriptions subRef with
    | none => db
    | some sub =>
      match paymentCreate db wf.paymentCreate (succeededPaymentOf inv sub) with
      | none => db
      | some db1 =>
        match activityCreate db1 wf.activityCreate (succeededActivityOf inv sub) with
        | none => db1
        | some db2 => db2

/-- The Payment row `handlePaymentFailed` creates (webhooks lines 162-172),
with the timestamped fallback id when `payment_intent` is falsy. -/
def failedPaymentOf (now : Int) (inv : Invoice) (sub : Subscription) : Payment :=
  { stripePaymentId :=
      if inv.payment_intent = "" then "failed_" ++ toString now else inv.payment_intent
    amount := inv.amount_due
    currency := inv.currency
    status := PaymentStatus.FAILED
    description := inv.description.getD "Subscription payment failed"
    receiptUrl := none
    userId := sub.userId
    subscriptionId := some sub.id }

/-- The UserActivity row `handlePaymentFailed` creates (lines 175-186). -/
def failedActivityOf (inv : Invoice) (sub : Subscription) : UserActivity :=
  { userId := sub.userId
    action := "PAYMENT_FAILED"
    description := "Payment failed for amount: " ++ toString (inv.amount_due / 100)
      ++ " " ++ inv.currency.toUpper
    metaPaymentId := some inv.payment_intent
    metaAmount := some inv.amount_due
    metaCurrency := some inv.currency }

/-- `handlePaymentFailed` (webhooks lines 153-198): like the success handler
but with status FAILED and `amount_due`. -/
def handlePaymentFailed (wf : WriteFaults) (now : Int) (db : DB) (inv : Invoice) : DB :=
  match inv.subscription with
  | none => db
  | some subRef =>
    match findSubByStripeId db.subscriptions subRef with
    | none => db
    | some sub =>
      match paymentCreate db wf.paymentCreate (failedPaymentOf now inv sub) with
      | none => db
      | some db1 =>
        match activityCreate db1 wf.activityCreate (failedActivityOf inv sub) with
        | none => db1
        | some db2 => db2

/-- `handleCustomerCreated` (webhooks lines 200-216): link the Stripe
customer id to the user named in the event metadata; errors swallowed. -/
def handleCustomerCreated (wf : WriteFaults) (db : DB) (c : StripeCustomer) : DB :=
  match c.metadataUserId with
  | none => db
  | some uid =>
    match userUpdate db wf.userUpdate uid (fun u => { u with stripeCustomerId := some c.id }) with
    | none => db
    | some db2 => db2

/-- An inbound event after the `stripe.webhooks.constructEvent` cast, one
constructor per `case` of the route's `switch`. -/
inductive StripeEvent where
  | subscriptionCreated (s : StripeSubscription)
  | subscriptionUpdated (s : StripeSubscription)
  | subscriptionDeleted (s : StripeSubscription)
  | invoicePaymentSucceeded (i : Invoice)
  | invoicePaymentFailed (i : Invoice)
  | customerCreated (c : StripeCustomer)
  | unhandled (eventType : String)
deriving DecidableEq, Repr

/-- The HTTP reply of the webhook route: status code and whether the body is
the acknowledgement `\x7b received: true \x7d`. -/
structure WebhookReply where
  status : Nat
  received : Bool
deriving DecidableEq, Repr

/-- `POST /api/webhooks/stripe` (webhooks lines 16-60): reject with 400 when
the signature does not verify; otherwise dispatch on the event type and
acknowledge. Every per-event handler catches and swallows its own errors, so
the route's own catch branch (the 500 reply) is unreachable once the
signature verified. -/
def stripeWebhook (sigOk : Bool) (wf : WriteFaults) (now : Int) (db : DB)
    (ev : StripeEvent) : WebhookReply × DB :=
  if sigOk = false then ({ status := 400, received := false }, db)
  else
    let db2 :=
      match ev with
      | StripeEvent.subscriptionCreated s => handleSubscriptionUpdate wf db s
      | StripeEvent.subscriptionUpdated s => handleSubscriptionUpdate wf db s
      | StripeEvent.subscriptionDeleted s => handleSubscriptionDeleted wf now db s
      | StripeEvent.invoicePaymentSucceeded i => handlePaymentSucceeded wf db i
      | StripeEvent.invoicePaymentFailed i => handlePaymentFailed wf now db i
      | StripeEvent.customerCreated c => handleCustomerCreated wf db c
      | StripeEvent.unhandled _ => db
    ({ status := 200, received := true }, db2)

/-- The outcome of a lifecycle endpoint as seen by the caller: `ok` is the
200 body with the returned subscription, `notFound` the 404 reply, and
`serverError` the catch-all 500 reply. -/
inductive ApiResult (α : Type) where
  | ok (value : α)
  | notFound (msg : String)
  | serverError (msg : String)
deriving DecidableEq, Repr

/-- `POST /api/subscriptions/:id/cancel` (subscriptions lines 146-207):
find the caller's subscription by internal id and user id (404 when absent);
call Stripe (update when scheduling at period end, cancel otherwise); then
update the local row — the cancel flag is set to the request's value, the
canceled-at and status columns are written only on an immediate cancel
(`undefined` / the previously read status otherwise) — and append a
SUBSCRIPTION_CANCELED activity. Any throw is caught and answered with 500,
keeping the writes already committed. -/
def cancelUpdater (now : Int) (cancelAtPeriodEnd : Bool) (found : Subscription)
    (s : Subscription) : Subscription :=
  { s with
    cancelAtPeriodEnd := cancelAtPeriodEnd
    canceledAt := if cancelAtPeriodEnd then s.canceledAt else some now
    status := if cancelAtPeriodEnd then found.status else SubscriptionStatus.CANCELED }

/-- The UserActivity row the cancel route appends (subscriptions lines 184-191). -/
def canceledActivityOf (userId : String) (sub : Subscription) (cancelAtPeriodEnd : Bool) :
    UserActivity :=
  { userId := userId
    action := "SUBSCRIPTION_CANCELED"
    description := "Canceled subscription: " ++ sub.id
    metaSubscriptionId := some sub.id
    metaCancelAtPeriodEnd := some cancelAtPeriodEnd }

def cancelRoute (sf : StripeFaults) (wf : WriteFaults) (now : Int) (db : DB)
    (userId sid : String) (cancelAtPeriodEnd : Bool) : ApiResult Subscription × DB :=
  match findFirstSubByIdUser db.subscriptions sid userId with
  | none => (ApiResult.notFound "Subscription not found", db)
  | some sub =>
    if (if cancelAtPeriodEnd then sf.subscriptionsUpdate else sf.subscriptionsCancel) then
      (ApiResult.serverError "Server error", db)
    else
      match subscriptionUpdateById db wf.subscriptionUpdate sid
          (cancelUpdater now cancelAtPeriodEnd sub) with
      | none => (ApiResult.serverError "Server error", db)
      | some (db1, updated) =>
        match activityCreate db1 wf.activityCreate
            (canceledActivityOf userId sub cancelAtPeriodEnd) with
        | none => (ApiResult.serverError "Server error", db1)
        | some db2 => (ApiResult.ok updated, db2)

/-- `POST /api/subscriptions/:id/reactivate` (subscriptions lines 212-266):
find the caller's subscription by internal id and user id (404 when absent);
ask Stripe to clear the scheduled cancellation; then clear the local cancel
flag and canceled-at — with no check of the subscription's status — and
append a SUBSCRIPTION_REACTIVATED activity. Any throw is caught and answered
with 500, keeping the writes already committed. -/
def reactivateUpdater (s : Subscription) : Subscription :=
  { s with cancelAtPeriodEnd := false, canceledAt := none }

/-- The UserActivity row the reactivate route appends (lines 244-251). -/
def reactivatedActivityOf (userId : String) (sub : Subscription) : UserActivity :=
  { userId := userId
    action := "SUBSCRIPTION_REACTIVATED"
    description := "Reactivated subscription: " ++ sub.id
    metaSubscriptionId := some sub.id }

def reactivateRoute (sf : StripeFaults) (wf : WriteFaults) (db : DB)
    (userId sid : String) : ApiResult Subscription × DB :=
  match findFirstSubByIdUser db.subscriptions sid userId with
  | none => (ApiResult.notFound "Subscription not found", db)
  | some sub =>
    if sf.subscriptionsUpdate then (ApiResult.serverError "Server error", db)
    else
      match subscriptionUpdateById db wf.subscriptionUpdate sid reactivateUpdater with
      | none => (ApiResult.serverError "Server error", db)
      | some (db1, updated) =>
        match activityCreate db1 wf.activityCreate (reactivatedActivityOf userId sub) with
        | none => (ApiResult.serverError "Server error", db1)
        | some db2 => (ApiResult.ok updated, db2)

/-- `POST /api/subscriptions/create` (subscriptions lines 39-141): look up
the plan (404 when absent); ensure a Stripe customer exists, persisting a
newly created customer's id on the User row at once; attach and default the
payment method; create the remote subscription; then create the local
Subscription row seeded from the remote result and append a
SUBSCRIPTION_CREATED activity. Any throw is caught and answered with 500,
keeping the writes already committed. `newCustomerId`, `newLocalSubId` and
`stripeSub` supply the ids and remote state the successful external calls
would return. -/
def createRoute (sf : StripeFaults) (wf : WriteFaults) (newCustomerId newLocalSubId : String)
    (stripeSub : StripeSubscription) (db : DB) (user : User) (planId : String) :
    ApiResult Subscription × DB :=
  match findPlanById db.plans planId with
  | none => (ApiResult.notFound "Plan not found", db)
  | some plan =>
    let customerStep : Option DB :=
      match user.stripeCustomerId with
      | some _ => some db
      | none =>
        if sf.customersCreate then none
        else userUpdate db wf.userUpdate user.id
          (fun u => { u with stripeCustomerId := some newCustomerId })
    match customerStep with
    | none => (ApiResult.serverError "Server error", db)
    | some db1 =>
      if sf.paymentMethodsAttach then (ApiResult.serverError "Server error", db1)
      else if sf.customersUpdate then (ApiResult.serverError "Server error", db1)
      else if sf.subscriptionsCreate then (ApiResult.serverError "Server error", db1)
      else
        let s : Subscription :=
          { id := newLocalSubId
            stripeSubscriptionId := stripeSub.id
            status := stripeSub.status
            priceId := plan.stripePriceId
            currentPeriodStart := stripeSub.current_period_start * 1000
            currentPeriodEnd := stripeSub.current_period_end * 1000
            cancelAtPeriodEnd := false
            canceledAt := none
            trialStart := none
            trialEnd := none
            userId := user.id
            companyId := user.companyId
            planId := plan.id }
        match subscriptionCreate db1 wf.subscriptionCreate s with
        | none => (ApiResult.serverError "Server error", db1)
        | some db2 =>
          let a : UserActivity :=
            { userId := user.id
              action := "SUBSCRIPTION_CREATED"
              description := "Created subscription for plan: " ++ plan.name
              metaSubscriptionId := some s.id
              metaPlanId := some plan.id }
          match activityCreate db2 wf.activityCreate a with
          | none => (ApiResult.serverError "Server error", db2)
          | some db3 => (ApiResult.ok s, db3)

/-- Number of Payment rows carrying a given external payment reference. -/
def countPaymentsWithRef : List Payment → String → Nat
  | [], _ => 0
  | p :: rest, ref =>
    (if p.stripePaymentId = ref then 1 else 0) + countPaymentsWithRef rest ref

/-- Number of UserActivity rows whose metadata names a given payment. -/
def countActivitiesWithPaymentRef : List UserActivity → String → Nat
  | [], _ => 0
  | a :: rest, ref =>
    (if a.metaPaymentId = some ref then 1 else 0) + countActivitiesWithPaymentRef rest ref

/-- The caller's own subscription rows, in store order (what a run can
observe through `findFirst` lookups scoped by `userId`). -/
def subsOfUser : List Subscription → String → List Subscription
  | [], _ => []
  | s :: rest, u => if s.userId = u then s :: subsOfUser rest u else subsOfUser rest u

/-! Concrete fixtures used to evaluate the development on explicit inputs. -/

def userFix : User :=
  { id := "u1", email := "a@b.c", firstName := "Ada", lastName := "L",
    stripeCustomerId := some "cus_1", companyId := none }

def userNoCust : User :=
  { id := "u1", email := "a@b.c", firstName := "Ada", lastName := "L",
    stripeCustomerId := none, companyId := none }

def planFix : Plan :=
  { id := "p1", name := "Pro", stripePriceId := "price_1", amount := 2999, isActive := true }

def subFix : Subscription :=
  { id := "s1", stripeSubscriptionId := "sub_1", status := SubscriptionStatus.ACTIVE,
    priceId := "price_1", currentPeriodStart := 0, currentPeriodEnd := 1000,
    cancelAtPeriodEnd := false, canceledAt := none, trialStart := none, trialEnd := none,
    userId := "u1", companyId := none, planId := "p1" }

def canceledSubFix : Subscription :=
  { subFix with
    id := "s2", stripeSubscriptionId := "sub_2",
    status := SubscriptionStatus.CANCELED, cancelAtPeriodEnd := true, canceledAt := some 5000 }

def otherUserSubFix : Subscription :=
  { subFix with id := "s9", stripeSubscriptionId := "sub_9", userId := "u2" }

def dbFix : DB :=
  { users := [userFix], plans := [planFix], subscriptions := [subFix],
    payments := [], activities := [] }

def dbCanceled : DB :=
  { users := [userFix], plans := [planFix], subscriptions := [canceledSubFix],
    payments := [], activities := [] }

def dbOtherUser : DB :=
  { users := [userFix], plans := [planFix], subscriptions := [otherUserSubFix],
    payments := [], activities := [] }

def dbNoSubs : DB :=
  { users := [userFix], plans := [planFix], subscriptions := [],
    payments := [], activities := [] }

def dbCreateFix : DB :=
  { users := [userNoCust], plans := [planFix], subscriptions := [],
    payments := [], activities := [] }

def invFix : Invoice :=
  { subscription := some "sub_1", payment_intent := "pi_1", amount_paid := 2999,
    amount_due := 2999, currency := "usd", description := none, hosted_invoice_url := none }

def snapFixA : StripeSubscription :=
  { id := "sub_1", status := SubscriptionStatus.PAST_DUE, current_period_start := 10,
    current_period_end := 20, cancel_at_period_end := false, canceled_at := none,
    trial_start := none, trial_end := none }

def snapFixB : StripeSubscription :=
  { id := "sub_1", status := SubscriptionStatus.ACTIVE, current_period_start := 30,
    current_period_end := 40, cancel_at_period_end := true, canceled_at := some 35,
    trial_start := none, trial_end := none }

def stripeSubNewFix : StripeSubscription :=
  { id := "sub_new", status := SubscriptionStatus.INCOMPLETE, current_period_start := 0,
    current_period_end := 100, cancel_at_period_end := false, canceled_at := none,
    trial_start := none, trial_end := none }

def sfSubCreateFail : StripeFaults :=
  { noStripeFaults with subscriptionsCreate := true }

def wfActivityFail : WriteFaults :=
  { noWriteFaults with activityCreate := true }

section Lemmas

theorem countPaymentsWithRef_append (l1 l2 : List Payment) (ref : String) :
    countPaymentsWithRef (l1 ++ l2) ref =
      countPaymentsWithRef l1 ref + countPaymentsWithRef l2 ref := by
  induction l1 with
  | nil => simp [countPaymentsWithRef]
  | cons p rest ih => simp [countPaymentsWithRef, ih]; omega

theorem countActivitiesWithPaymentRef_append (l1 l2 : List UserActivity) (ref : String) :
    countActivitiesWithPaymentRef (l1 ++ l2) ref =
      countActivitiesWithPaymentRef l1 ref + countActivitiesWithPaymentRef l2 ref := by
  induction l1 with
  | nil => simp [countActivitiesWithPaymentRef]
  | cons a rest ih => simp [countActivitiesWithPaymentRef, ih]; omega

theorem findPaymentByStripeId_eq_none_of_count_zero (l : List Payment) (ref : String)
    (h : countPaymentsWithRef l ref = 0) : findPaymentByStripeId l ref = none := by
  induction l with
  | nil => rfl
  | cons p rest ih =>
    by_cases hp : p.stripePaymentId = ref
    · simp [countPaymentsWithRef, hp] at h
    · simp [countPaymentsWithRef, hp] at h
      simp [findPaymentByStripeId, hp, ih h]

theorem findPaymentByStripeId_append (l1 l2 : List Payment) (ref : String)
    (h : findPaymentByStripeId l1 ref = none) :
    findPaymentByStripeId (l1 ++ l2) ref = findPaymentByStripeId l2 ref := by
  induction l1 with
  | nil => rfl
  | cons p rest ih =>
    by_cases hp : p.stripePaymentId = ref
    · simp [findPaymentByStripeId, hp] at h
    · simp [findPaymentByStripeId, hp] at h ⊢
      exact ih h

theorem findFirstSubByIdUser_of_findById (subs : List Subscription) (sid u : String)
    (sub : Subscription) (h : findSubByInternalId subs sid = some sub)
    (hu : sub.userId = u) : findFirstSubByIdUser subs sid u = some sub := by
  induction subs with
  | nil => simp [findSubByInternalId] at h
  | cons s rest ih =>
    by_cases hs : s.id = sid
    · simp [findSubByInternalId, hs] at h
      subst h
      simp [findFirstSubByIdUser, hs, hu]
    · simp [findSubByInternalId, hs] at h
      simp [findFirstSubByIdUser, hs, ih h]

theorem findSubByStripeId_update (subs : List Subscription) (ref : String)
    (f : Subscription → Subscription)
    (hf : ∀ s, (f s).stripeSubscriptionId = s.stripeSubscriptionId) :
    findSubByStripeId (updateSubsByStripeId subs ref f) ref
      = (findSubByStripeId subs ref).map f := by
  induction subs with
  | nil => rfl
  | cons s rest ih =>
    by_cases hs : s.stripeSubscriptionId = ref
    · simp [updateSubsByStripeId, findSubByStripeId, hs, hf s]
    · simp [updateSubsByStripeId, findSubByStripeId, hs, ih]

theorem findSubByInternalId_update (subs : List Subscription) (sid : String)
    (f : Subscription → Subscription)
    (hf : ∀ s, (f s).id = s.id) :
    findSubByInternalId (updateSubsByInternalId subs sid f) sid
      = (findSubByInternalId subs sid).map f := by
  induction subs with
  | nil => rfl
  | cons s rest ih =>
    by_cases hs : s.id = sid
    · simp [updateSubsByInternalId, findSubByInternalId, hs, hf s]
    · simp [updateSubsByInternalId, findSubByInternalId, hs, ih]

theorem handleSubscriptionUpdate_found (wf : WriteFaults) (db : DB)
    (snap : StripeSubscription) (sub : Subscription)
    (hwf : wf.subscriptionUpdate = false)
    (hfound : findSubByStripeId db.subscriptions snap.id = some sub) :
    handleSubscriptionUpdate wf db snap =
      { db with subscriptions := updateSubsByStripeId db.subscriptions snap.id (applySnapshotFields snap) } := by
  simp [handleSubscriptionUpdate, hfound, subscriptionUpdateByStripeId, hwf]

theorem cancelRoute_nofault (db : DB) (u sid : String) (cap : Bool) (sub : Subscription)
    (now : Int)
    (hff : findFirstSubByIdUser db.subscriptions sid u = some sub)
    (hid : findSubByInternalId db.subscriptions sid = some sub) :
    cancelRoute noStripeFaults noWriteFaults now db u sid cap =
      (ApiResult.ok (cancelUpdater now cap sub sub),
       { db with subscriptions := updateSubsByInternalId db.subscriptions sid (cancelUpdater now cap sub), activities := db.activities ++ [canceledActivityOf u sub cap] }) := by
  cases cap <;>
    simp [cancelRoute, hff, subscriptionUpdateById, hid, activityCreate,
      noStripeFaults, noWriteFaults]

theorem reactivateRoute_nofault (db : DB) (u sid : String) (sub : Subscription)
    (hff : findFirstSubByIdUser db.subscriptions sid u = some sub)
    (hid : findSubByInternalId db.subscriptions sid = some sub) :
    reactivateRoute noStripeFaults noWriteFaults db u sid =
      (ApiResult.ok (reactivateUpdater sub),
       { db with subscriptions := updateSubsByInternalId db.subscriptions sid reactivateUpdater, activities := db.activities ++ [reactivatedActivityOf u sub] }) := by
  simp [reactivateRoute, hff, subscriptionUpdateById, hid, activityCreate,
    noStripeFaults, noWriteFaults]

theorem cancelRoute_fst_found (sf : StripeFaults) (wf : WriteFaults) (now : Int) (db : DB)
    (u sid : String) (cap : Bool) (sub : Subscription)
    (hff : findFirstSubByIdUser db.subscriptions sid u = some sub)
    (hid : findSubByInternalId db.subscriptions sid = some sub) :
    (cancelRoute sf wf now db u sid cap).fst =
      if (if cap then sf.subscriptionsUpdate else sf.subscriptionsCancel) then
        ApiResult.serverError "Server error"
      else if wf.subscriptionUpdate then ApiResult.serverError "Server error"
      else if wf.activityCreate then ApiResult.serverError "Server error"
      else ApiResult.ok (cancelUpdater now cap sub sub) := by
  by_cases hS : (if cap then sf.subscriptionsUpdate else sf.subscriptionsCancel) = true
  · simp [cancelRoute, hff, hS]
  · by_cases hW : wf.subscriptionUpdate = true
    · simp [cancelRoute, hff, hS, subscriptionUpdateById, hW]
    · by_cases hA : wf.activityCreate = true
      · simp [cancelRoute, hff, hS, subscriptionUpdateById, hW, hid, activityCreate, hA]
      · simp [cancelRoute, hff, hS, subscriptionUpdateById, hW, hid, activityCreate, hA]

theorem reactivateRoute_fst_found (sf : StripeFaults) (wf : WriteFaults) (db : DB)
    (u sid : String) (sub : Subscription)
    (hff : findFirstSubByIdUser db.subscriptions sid u = some sub)
    (hid : findSubByInternalId db.subscriptions sid = some sub) :
    (reactivateRoute sf wf db u sid).fst =
      if sf.subscriptionsUpdate then ApiResult.serverError "Server error"
      else if wf.subscriptionUpdate then ApiResult.serverError "Server error"
      else if wf.activityCreate then ApiResult.serverError "Server error"
      else ApiResult.ok (reactivateUpdater sub) := by
  by_cases hS : sf.subscriptionsUpdate = true
  · simp [reactivateRoute, hff, hS]
  · by_cases hW : wf.subscriptionUpdate = true
    · simp [reactivateRoute, hff, hS, subscriptionUpdateById, hW]
    · by_cases hA : wf.activityCreate = true
      · simp [reactivateRoute, hff, hS, subscriptionUpdateById, hW, hid, activityCreate, hA]
      · simp [reactivateRoute, hff, hS, subscriptionUpdateById, hW, hid, activityCreate, hA]

theorem findFirstSubByIdUser_eq_subsOfUser (subs : List Subscription) (sid u : String) :
    findFirstSubByIdUser subs sid u = findFirstSubByIdUser (subsOfUser subs u) sid u := by
  induction subs with
  | nil => rfl
  | cons s rest ih =>
    by_cases hu : s.userId = u
    · by_cases hsid : s.id = sid
      · simp [findFirstSubByIdUser, subsOfUser, hu, hsid]
      · simp [findFirstSubByIdUser, subsOfUser, hu, hsid, ih]
    · simp [findFirstSubByIdUser, subsOfUser, hu, ih]

theorem findFirstSubByIdUser_spec (subs : List Subscription) (sid u : String)
    (sub : Subscription) (h : findFirstSubByIdUser subs sid u = some sub) :
    sub ∈ subs ∧ sub.id = sid ∧ sub.userId = u := by
  induction subs with
  | nil => simp [findFirstSubByIdUser] at h
  | cons s rest ih =>
    by_cases hc : s.id = sid ∧ s.userId = u
    · simp only [findFirstSubByIdUser, if_pos hc] at h
      cases h
      exact ⟨List.mem_cons_self _ _, hc.1, hc.2⟩
    · simp only [findFirstSubByIdUser, if_neg hc] at h
      obtain ⟨hm, h1, h2⟩ := ih h
      exact ⟨List.mem_cons_of_mem _ hm, h1, h2⟩

theorem findSubByInternalId_of_nodup (subs : List Subscription) (sid : String)
    (sub : Subscription)
    (hnd : (subs.map Subscription.id).Nodup)
    (hmem : sub ∈ subs) (hsid : sub.id = sid) :
    findSubByInternalId subs sid = some sub := by
  induction subs with
  | nil => simp at hmem
  | cons s rest ih =>
    rw [List.map_cons, List.nodup_cons] at hnd
    rcases List.mem_cons.mp hmem with rfl | hmem2
    · simp [findSubByInternalId, hsid]
    · have hin : sid ∈ rest.map Subscription.id :=
        hsid ▸ List.mem_map_of_mem Subscription.id hmem2
      have hs : ¬ s.id = sid := by
        intro hcontra
        exact hnd.1 (by rw [hcontra]; exact hin)
      simp [findSubByInternalId, hs, ih hnd.2 hmem2]

theorem userUpdate_some_eq (db : DB) (fault : Bool) (uid : String) (f : User → User)
    (db1 : DB) (h : userUpdate db fault uid f = some db1) :
    db1 = { db with users := db.users.map fun u => if u.id = uid then f u else u } := by
  unfold userUpdate at h
  split at h
  · simp at h
  · split at h
    · exact (Option.some.inj h).symm
    · simp at h

theorem handlePaymentSucceeded_fresh (wf : WriteFaults) (db : DB) (inv : Invoice)
    (ref : String) (sub : Subscription)
    (hpc : wf.paymentCreate = false)
    (h1 : inv.subscription = some ref)
    (h2 : findSubByStripeId db.subscriptions ref = some sub)
    (h3 : findPaymentByStripeId db.payments inv.payment_intent = none) :
    handlePaymentSucceeded wf db inv =
      if wf.activityCreate then
        { db with payments := db.payments ++ [succeededPaymentOf inv sub] }
      else
        { db with payments := db.payments ++ [succeededPaymentOf inv sub],
                  activities := db.activities ++ [succeededActivityOf inv sub] } := by
  have hsp : (succeededPaymentOf inv sub).stripePaymentId = inv.payment_intent := rfl
  by_cases hac : wf.activityCreate
  · simp [handlePaymentSucceeded, h1, h2, paymentCreate, hpc, hsp, h3,
      activityCreate, hac]
  · simp [handlePaymentSucceeded, h1, h2, paymentCreate, hpc, hsp, h3,
      activityCreate, hac]

theorem handlePaymentFailed_fresh (wf : WriteFaults) (now : Int) (db : DB) (inv : Invoice)
    (ref : String) (sub : Subscription)
    (hpc : wf.paymentCreate = false)
    (h1 : inv.subscription = some ref)
    (h2 : findSubByStripeId db.subscriptions ref = some sub)
    (h3 : findPaymentByStripeId db.payments (failedPaymentOf now inv sub).stripePaymentId
      = none) :
    handlePaymentFailed wf now db inv =
      if wf.activityCreate then
        { db with payments := db.payments ++ [failedPaymentOf now inv sub] }
      else
        { db with payments := db.payments ++ [failedPaymentOf now inv sub],
                  activities := db.activities ++ [failedActivityOf inv sub] } := by
  by_cases hac : wf.activityCreate
  · simp [handlePaymentFailed, h1, h2, paymentCreate, hpc, h3, activityCreate, hac]
  · simp [handlePaymentFailed, h1, h2, paymentCreate, hpc, h3, activityCreate, hac]

theorem handlePaymentSucceeded_dup (wf : WriteFaults) (db : DB) (inv : Invoice)
    (ref : String) (sub : Subscription)
    (h1 : inv.subscription = some ref)
    (h2 : findSubByStripeId db.subscriptions ref = some sub)
    (h3 : (findPaymentByStripeId db.payments inv.payment_intent).isSome = true) :
    handlePaymentSucceeded wf db inv = db := by
  have hsp : (succeededPaymentOf inv sub).stripePaymentId = inv.payment_intent := rfl
  by_cases hpc : wf.paymentCreate
  · simp [handlePaymentSucceeded, h1, h2, paymentCreate, hpc]
  · simp [handlePaymentSucceeded, h1, h2, paymentCreate, hpc, hsp, h3]

end Lemmas

/-- Claim C1: delivering the same payment-succeeded event (same external
payment reference) twice against the same initial state yields exactly one
Payment row with that reference and exactly one associated UserActivity
entry; the second application creates no additional rows. -/
theorem payment_succeeded_idempotent (db : DB) (inv : Invoice) (ref : String)
    (sub : Subscription)
    (h1 : inv.subscription = some ref)
    (h2 : findSubByStripeId db.subscriptions ref = some sub)
    (h3 : countPaymentsWithRef db.payments inv.payment_intent = 0)
    (h4 : countActivitiesWithPaymentRef db.activities inv.payment_intent = 0) :
    handlePaymentSucceeded noWriteFaults (handlePaymentSucceeded noWriteFaults db inv) inv
        = handlePaymentSucceeded noWriteFaults db inv ∧
    countPaymentsWithRef (handlePaymentSucceeded noWriteFaults db inv).payments
        inv.payment_intent = 1 ∧
    countActivitiesWithPaymentRef (handlePaymentSucceeded noWriteFaults db inv).activities
        inv.payment_intent = 1 := by
  have hp3 : findPaymentByStripeId db.payments inv.payment_intent = none :=
    findPaymentByStripeId_eq_none_of_count_zero _ _ h3
  have hfst := handlePaymentSucceeded_fresh noWriteFaults db inv ref sub rfl h1 h2 hp3
  rw [if_neg (by decide : ¬ (noWriteFaults.activityCreate = true))] at hfst
  rw [hfst]
  have hsp : (succeededPaymentOf inv sub).stripePaymentId = inv.payment_intent := rfl
  have hsa : (succeededActivityOf inv sub).metaPaymentId = some inv.payment_intent := rfl
  refine ⟨?_, ?_, ?_⟩
  · refine handlePaymentSucceeded_dup _ _ _ ref sub h1 ?_ ?_
    · exact h2
    · show (findPaymentByStripeId (db.payments ++ [succeededPaymentOf inv sub])
        inv.payment_intent).isSome = true
      rw [findPaymentByStripeId_append _ _ _ hp3]
      simp [findPaymentByStripeId, hsp]
  · show countPaymentsWithRef (db.payments ++ [succeededPaymentOf inv sub])
      inv.payment_intent = 1
    rw [countPaymentsWithRef_append, h3]
    simp [countPaymentsWithRef, hsp]
  · show countActivitiesWithPaymentRef (db.activities ++ [succeededActivityOf inv sub])
      inv.payment_intent = 1
    rw [countActivitiesWithPaymentRef_append, h4]
    simp [countActivitiesWithPaymentRef, hsa]

/-- Witness for C1: the double delivery of `invFix` against `dbFix`. -/
theorem payment_succeeded_idempotent_witness :
    handlePaymentSucceeded noWriteFaults (handlePaymentSucceeded noWriteFaults dbFix invFix) invFix
        = handlePaymentSucceeded noWriteFaults dbFix invFix ∧
    countPaymentsWithRef (handlePaymentSucceeded noWriteFaults dbFix invFix).payments
        invFix.payment_intent = 1 ∧
    countActivitiesWithPaymentRef (handlePaymentSucceeded noWriteFaults dbFix invFix).activities
        invFix.payment_intent = 1 :=
  payment_succeeded_idempotent dbFix invFix "sub_1" subFix rfl rfl rfl rfl

/-- Claim C2 counterexample: at `dbFix` and `invFix`, with the Payment write
succeeding and the UserActivity write failing, the final store holds the
Payment row for `pi_1` with no associated UserActivity entry — the pair is
not atomic. -/
theorem payment_activity_atomic_counterexample :
    countPaymentsWithRef
        (handlePaymentSucceeded wfActivityFail dbFix invFix).payments "pi_1" = 1 ∧
    countActivitiesWithPaymentRef
        (handlePaymentSucceeded wfActivityFail dbFix invFix).activities "pi_1" = 0 :=
  ⟨rfl, rfl⟩

/-- Claim C2 amended: for both payment outcomes — succeeded and failed — the
Payment row and its UserActivity entry are two separate writes, not one
transaction. When both writes succeed, both persist; when the UserActivity
write fails after the Payment write committed, the Payment row persists
alone and the error is swallowed. -/
theorem payment_activity_pair_not_transactional (db : DB) (inv : Invoice) (ref : String)
    (sub : Subscription) (now : Int)
    (h1 : inv.subscription = some ref)
    (h2 : findSubByStripeId db.subscriptions ref = some sub)
    (h3 : findPaymentByStripeId db.payments inv.payment_intent = none)
    (h3f : findPaymentByStripeId db.payments (failedPaymentOf now inv sub).stripePaymentId
      = none) :
    handlePaymentSucceeded noWriteFaults db inv =
      { db with payments := db.payments ++ [succeededPaymentOf inv sub],
                activities := db.activities ++ [succeededActivityOf inv sub] } ∧
    handlePaymentSucceeded wfActivityFail db inv =
      { db with payments := db.payments ++ [succeededPaymentOf inv sub] } ∧
    handlePaymentFailed noWriteFaults now db inv =
      { db with payments := db.payments ++ [failedPaymentOf now inv sub],
                activities := db.activities ++ [failedActivityOf inv sub] } ∧
    handlePaymentFailed wfActivityFail now db inv =
      { db with payments := db.payments ++ [failedPaymentOf now inv sub] } := by
  refine ⟨?_, ?_, ?_, ?_⟩
  · have h := handlePaymentSucceeded_fresh noWriteFaults db inv ref sub rfl h1 h2 h3
    rwa [if_neg (by decide : ¬ (noWriteFaults.activityCreate = true))] at h
  · have h := handlePaymentSucceeded_fresh wfActivityFail db inv ref sub rfl h1 h2 h3
    rwa [if_pos (by decide : wfActivityFail.activityCreate = true)] at h
  · have h := handlePaymentFailed_fresh noWriteFaults now db inv ref sub rfl h1 h2 h3f
    rwa [if_neg (by decide : ¬ (noWriteFaults.activityCreate = true))] at h
  · have h := handlePaymentFailed_fresh wfActivityFail now db inv ref sub rfl h1 h2 h3f
    rwa [if_pos (by decide : wfActivityFail.activityCreate = true)] at h

/-- Witness for the amended C2 at `dbFix` and `invFix`, for both handlers. -/
theorem payment_activity_pair_not_transactional_witness :
    handlePaymentSucceeded noWriteFaults dbFix invFix =
      { dbFix with payments := dbFix.payments ++ [succeededPaymentOf invFix subFix],
                   activities := dbFix.activities ++ [succeededActivityOf invFix subFix] } ∧
    handlePaymentSucceeded wfActivityFail dbFix invFix =
      { dbFix with payments := dbFix.payments ++ [succeededPaymentOf invFix subFix] } ∧
    handlePaymentFailed noWriteFaults 0 dbFix invFix =
      { dbFix with payments := dbFix.payments ++ [failedPaymentOf 0 invFix subFix],
                   activities := dbFix.activities ++ [failedActivityOf invFix subFix] } ∧
    handlePaymentFailed wfActivityFail 0 dbFix invFix =
      { dbFix with payments := dbFix.payments ++ [failedPaymentOf 0 invFix subFix] } :=
  payment_activity_pair_not_transactional dbFix invFix "sub_1" subFix 0 rfl rfl rfl rfl

/-- Claim C3 counterexample: reactivating the CANCELED subscription `s2`
owned by `u1` is answered with success, not `InvalidStateError`, and the
stored row changes (cancel flag and canceled-at cleared). -/
theorem reactivate_canceled_counterexample :
    (reactivateRoute noStripeFaults noWriteFaults dbCanceled "u1" "s2").fst
        = ApiResult.ok { canceledSubFix with cancelAtPeriodEnd := false, canceledAt := none } ∧
    (reactivateRoute noStripeFaults noWriteFaults dbCanceled "u1" "s2").snd.subscriptions
        = [{ canceledSubFix with cancelAtPeriodEnd := false, canceledAt := none }] :=
  ⟨rfl, rfl⟩

/-- Claim C3 amended: the reactivate route performs no status check:
reactivating a CANCELED subscription owned by the caller succeeds, clears
the cancel flag and canceled-at, leaves the status CANCELED, and appends a
SUBSCRIPTION_REACTIVATED activity — no `InvalidStateError` exists in the
code. -/
theorem reactivate_canceled_not_rejected (db : DB) (u sid : String) (sub : Subscription)
    (hid : findSubByInternalId db.subscriptions sid = some sub)
    (hu : sub.userId = u)
    (hstatus : sub.status = SubscriptionStatus.CANCELED) :
    reactivateRoute noStripeFaults noWriteFaults db u sid =
      (ApiResult.ok (reactivateUpdater sub),
       { db with
         subscriptions := updateSubsByInternalId db.subscriptions sid reactivateUpdater,
         activities := db.activities ++ [reactivatedActivityOf u sub] }) ∧
    (reactivateUpdater sub).status = SubscriptionStatus.CANCELED ∧
    (reactivateUpdater sub).cancelAtPeriodEnd = false ∧
    (reactivateUpdater sub).canceledAt = none := by
  have hff := findFirstSubByIdUser_of_findById db.subscriptions sid u sub hid hu
  refine ⟨?_, by simp [reactivateUpdater, hstatus], rfl, rfl⟩
  simp [reactivateRoute, hff, subscriptionUpdateById, hid, activityCreate,
    noStripeFaults, noWriteFaults]

/-- Witness for the amended C3 at `dbCanceled`. -/
theorem reactivate_canceled_not_rejected_witness :
    reactivateRoute noStripeFaults noWriteFaults dbCanceled "u1" "s2" =
      (ApiResult.ok (reactivateUpdater canceledSubFix),
       { dbCanceled with
         subscriptions := updateSubsByInternalId dbCanceled.subscriptions "s2" reactivateUpdater,
         activities := dbCanceled.activities ++ [reactivatedActivityOf "u1" canceledSubFix] }) ∧
    (reactivateUpdater canceledSubFix).status = SubscriptionStatus.CANCELED ∧
    (reactivateUpdater canceledSubFix).cancelAtPeriodEnd = false ∧
    (reactivateUpdater canceledSubFix).canceledAt = none :=
  reactivate_canceled_not_rejected dbCanceled "u1" "s2" canceledSubFix rfl rfl rfl

/-- Claim C4: applying two subscription snapshots for the same external
reference to an existing local Subscription leaves every
snapshot-controlled field — status, period bounds, cancel flag,
canceled-at, trial bounds — equal to the second (most recent) snapshot's
values: last write wins, unconditionally. -/
theorem snapshot_last_write_wins (db : DB) (s1 s2 : StripeSubscription) (sub : Subscription)
    (hid : s1.id = s2.id)
    (hfound : findSubByStripeId db.subscriptions s2.id = some sub) :
    findSubByStripeId
        (handleSubscriptionUpdate noWriteFaults
          (handleSubscriptionUpdate noWriteFaults db s1) s2).subscriptions s2.id
      = some (applySnapshotFields s2 (applySnapshotFields s1 sub)) ∧
    (applySnapshotFields s2 (applySnapshotFields s1 sub)).status = s2.status ∧
    (applySnapshotFields s2 (applySnapshotFields s1 sub)).currentPeriodStart
      = s2.current_period_start * 1000 ∧
    (applySnapshotFields s2 (applySnapshotFields s1 sub)).currentPeriodEnd
      = s2.current_period_end * 1000 ∧
    (applySnapshotFields s2 (applySnapshotFields s1 sub)).cancelAtPeriodEnd
      = s2.cancel_at_period_end ∧
    (applySnapshotFields s2 (applySnapshotFields s1 sub)).canceledAt
      = s2.canceled_at.map (· * 1000) ∧
    (applySnapshotFields s2 (applySnapshotFields s1 sub)).trialStart
      = s2.trial_start.map (· * 1000) ∧
    (applySnapshotFields s2 (applySnapshotFields s1 sub)).trialEnd
      = s2.trial_end.map (· * 1000) := by
  have hf1 : ∀ s, (applySnapshotFields s1 s).stripeSubscriptionId = s.stripeSubscriptionId :=
    fun _ => rfl
  have hf2 : ∀ s, (applySnapshotFields s2 s).stripeSubscriptionId = s.stripeSubscriptionId :=
    fun _ => rfl
  have hfound1 : findSubByStripeId db.subscriptions s1.id = some sub := by
    rw [hid]; exact hfound
  rw [handleSubscriptionUpdate_found noWriteFaults db s1 sub rfl hfound1]
  have hfind1 : findSubByStripeId
      (updateSubsByStripeId db.subscriptions s1.id (applySnapshotFields s1)) s2.id
      = some (applySnapshotFields s1 sub) := by
    rw [← hid, findSubByStripeId_update _ _ _ hf1, hfound1]
    rfl
  rw [handleSubscriptionUpdate_found noWriteFaults _ s2 (applySnapshotFields s1 sub) rfl hfind1]
  refine ⟨?_, rfl, rfl, rfl, rfl, rfl, rfl, rfl⟩
  show findSubByStripeId (updateSubsByStripeId
    (updateSubsByStripeId db.subscriptions s1.id (applySnapshotFields s1)) s2.id
    (applySnapshotFields s2)) s2.id = some (applySnapshotFields s2 (applySnapshotFields s1 sub))
  rw [findSubByStripeId_update _ _ _ hf2, hfind1]
  rfl

/-- Witness for C4: snapshots `snapFixA` then `snapFixB` against `dbFix`. -/
theorem snapshot_last_write_wins_witness :
    findSubByStripeId
        (handleSubscriptionUpdate noWriteFaults
          (handleSubscriptionUpdate noWriteFaults dbFix snapFixA) snapFixB).subscriptions
        snapFixB.id
      = some (applySnapshotFields snapFixB (applySnapshotFields snapFixA subFix)) ∧
    (applySnapshotFields snapFixB (applySnapshotFields snapFixA subFix)).status
      = snapFixB.status ∧
    (applySnapshotFields snapFixB (applySnapshotFields snapFixA subFix)).currentPeriodStart
      = snapFixB.current_period_start * 1000 ∧
    (applySnapshotFields snapFixB (applySnapshotFields snapFixA subFix)).currentPeriodEnd
      = snapFixB.current_period_end * 1000 ∧
    (applySnapshotFields snapFixB (applySnapshotFields snapFixA subFix)).cancelAtPeriodEnd
      = snapFixB.cancel_at_period_end ∧
    (applySnapshotFields snapFixB (applySnapshotFields snapFixA subFix)).canceledAt
      = snapFixB.canceled_at.map (· * 1000) ∧
    (applySnapshotFields snapFixB (applySnapshotFields snapFixA subFix)).trialStart
      = snapFixB.trial_start.map (· * 1000) ∧
    (applySnapshotFields snapFixB (applySnapshotFields snapFixA subFix)).trialEnd
      = snapFixB.trial_end.map (· * 1000) :=
  snapshot_last_write_wins dbFix snapFixA snapFixB subFix rfl rfl

/-- Claim C5: starting from an owned subscription with status ACTIVE, cancel
flag false and canceled-at null, cancel with cancelAtPeriodEnd=true keeps
status ACTIVE and sets the cancel flag; a subsequent reactivate restores
cancel flag false and canceled-at null with status still ACTIVE — the round
trip returns the stored row to exactly its original state. -/
theorem cancel_reactivate_round_trip (db : DB) (u sid : String) (sub : Subscription)
    (now : Int)
    (hid : findSubByInternalId db.subscriptions sid = some sub)
    (hu : sub.userId = u)
    (hact : sub.status = SubscriptionStatus.ACTIVE)
    (hcap : sub.cancelAtPeriodEnd = false)
    (hcanc : sub.canceledAt = none) :
    (cancelRoute noStripeFaults noWriteFaults now db u sid true).fst
        = ApiResult.ok (cancelUpdater now true sub sub) ∧
    (cancelUpdater now true sub sub).status = SubscriptionStatus.ACTIVE ∧
    (cancelUpdater now true sub sub).cancelAtPeriodEnd = true ∧
    (reactivateRoute noStripeFaults noWriteFaults
        (cancelRoute noStripeFaults noWriteFaults now db u sid true).snd u sid).fst
        = ApiResult.ok (reactivateUpdater (cancelUpdater now true sub sub)) ∧
    (reactivateUpdater (cancelUpdater now true sub sub)).status
        = SubscriptionStatus.ACTIVE ∧
    (reactivateUpdater (cancelUpdater now true sub sub)).cancelAtPeriodEnd = false ∧
    (reactivateUpdater (cancelUpdater now true sub sub)).canceledAt = none ∧
    reactivateUpdater (cancelUpdater now true sub sub) = sub := by
  have hff := findFirstSubByIdUser_of_findById db.subscriptions sid u sub hid hu
  have ecancel := cancelRoute_nofault db u sid true sub now hff hid
  have hid2 : findSubByInternalId
      (updateSubsByInternalId db.subscriptions sid (cancelUpdater now true sub)) sid
      = some (cancelUpdater now true sub sub) := by
    rw [findSubByInternalId_update db.subscriptions sid (cancelUpdater now true sub)
      (fun _ => rfl), hid]
    rfl
  have hff2 := findFirstSubByIdUser_of_findById _ sid u _ hid2 hu
  have hround : reactivateUpdater (cancelUpdater now true sub sub) = sub := by
    cases sub
    simp_all [reactivateUpdater, cancelUpdater]
  refine ⟨?_, ?_, rfl, ?_, ?_, rfl, rfl, hround⟩
  · rw [ecancel]
  · show (if true then sub.status else SubscriptionStatus.CANCELED)
      = SubscriptionStatus.ACTIVE
    simpa using hact
  · rw [ecancel]
    have := reactivateRoute_nofault
      { db with subscriptions := updateSubsByInternalId db.subscriptions sid (cancelUpdater now true sub), activities := db.activities ++ [canceledActivityOf u sub true] }
      u sid (cancelUpdater now true sub sub) hff2 hid2
    rw [this]
  · show (if true then sub.status else SubscriptionStatus.CANCELED)
      = SubscriptionStatus.ACTIVE
    simpa using hact

/-- Witness for C5 at `dbFix` (subscription `s1` of user `u1`). -/
theorem cancel_reactivate_round_trip_witness :
    (cancelRoute noStripeFaults noWriteFaults 7 dbFix "u1" "s1" true).fst
        = ApiResult.ok (cancelUpdater 7 true subFix subFix) ∧
    (cancelUpdater 7 true subFix subFix).status = SubscriptionStatus.ACTIVE ∧
    (cancelUpdater 7 true subFix subFix).cancelAtPeriodEnd = true ∧
    (reactivateRoute noStripeFaults noWriteFaults
        (cancelRoute noStripeFaults noWriteFaults 7 dbFix "u1" "s1" true).snd "u1" "s1").fst
        = ApiResult.ok (reactivateUpdater (cancelUpdater 7 true subFix subFix)) ∧
    (reactivateUpdater (cancelUpdater 7 true subFix subFix)).status
        = SubscriptionStatus.ACTIVE ∧
    (reactivateUpdater (cancelUpdater 7 true subFix subFix)).cancelAtPeriodEnd = false ∧
    (reactivateUpdater (cancelUpdater 7 true subFix subFix)).canceledAt = none ∧
    reactivateUpdater (cancelUpdater 7 true subFix subFix) = subFix :=
  cancel_reactivate_round_trip dbFix "u1" "s1" subFix 7 rfl rfl rfl rfl rfl

/-- Claim C6 counterexample: user `u1` has no linked processor customer; the
customer-creation call succeeds and its id is committed on the User row,
then the remote subscription-creation call fails. The request fails and no
Subscription row exists, but the store has changed: the User row now carries
the new customer id — something WAS partially committed to local state. -/
theorem create_partial_commit_counterexample :
    (createRoute sfSubCreateFail noWriteFaults "cus_new" "s_new" stripeSubNewFix dbCreateFix userNoCust "p1").fst = ApiResult.serverError "Server error" ∧
    (createRoute sfSubCreateFail noWriteFaults "cus_new" "s_new" stripeSubNewFix dbCreateFix userNoCust "p1").snd.subscriptions = [] ∧
    (createRoute sfSubCreateFail noWriteFaults "cus_new" "s_new" stripeSubNewFix dbCreateFix userNoCust "p1").snd.users = [{ userNoCust with stripeCustomerId := some "cus_new" }] ∧
    (createRoute sfSubCreateFail noWriteFaults "cus_new" "s_new" stripeSubNewFix dbCreateFix userNoCust "p1").snd ≠ dbCreateFix := by
  refine ⟨rfl, rfl, rfl, ?_⟩
  decide

/-- Claim C6 amended: when the remote subscription-creation call fails, no
local Subscription row, Payment row or UserActivity entry is created and the
request does not succeed (it fails with the route's generic server error);
if the user already had a linked processor customer, nothing at all is
committed locally — but when the user had none, the customer id created
earlier in the same request remains persisted on the User row. -/
theorem create_remote_failure_no_local_subscription
    (sf : StripeFaults) (wf : WriteFaults) (ncid nsid : String) (ss : StripeSubscription)
    (db : DB) (user : User) (planId : String)
    (hfail : sf.subscriptionsCreate = true) :
    (createRoute sf wf ncid nsid ss db user planId).snd.subscriptions = db.subscriptions ∧
    (createRoute sf wf ncid nsid ss db user planId).snd.payments = db.payments ∧
    (createRoute sf wf ncid nsid ss db user planId).snd.activities = db.activities ∧
    (∀ v, (createRoute sf wf ncid nsid ss db user planId).fst ≠ ApiResult.ok v) ∧
    (∀ cid, user.stripeCustomerId = some cid →
      (createRoute sf wf ncid nsid ss db user planId).snd = db) := by
  unfold createRoute
  cases hplan : findPlanById db.plans planId with
  | none => simp
  | some plan =>
    cases hcust : user.stripeCustomerId with
    | some cid =>
      simp only [hcust, hfail]
      split_ifs <;> simp
    | none =>
      simp only [hcust]
      by_cases hcc : sf.customersCreate = true
      · simp [hcc]
      · simp only [hcc, if_false, Bool.false_eq_true]
        cases huu : userUpdate db wf.userUpdate user.id
            (fun u => { u with stripeCustomerId := some ncid }) with
        | none => simp
        | some db1 =>
          have hdb1 := userUpdate_some_eq db wf.userUpdate user.id _ db1 huu
          subst hdb1
          simp only [hfail]
          split_ifs <;> simp

/-- Witness for the amended C6: user `u1` already linked to `cus_1`, plan
`p1` present, remote subscription creation failing. -/
theorem create_remote_failure_no_local_subscription_witness :
    (createRoute sfSubCreateFail noWriteFaults "cus_new" "s_new" stripeSubNewFix dbFix userFix "p1").snd.subscriptions = dbFix.subscriptions ∧
    (createRoute sfSubCreateFail noWriteFaults "cus_new" "s_new" stripeSubNewFix dbFix userFix "p1").snd.payments = dbFix.payments ∧
    (createRoute sfSubCreateFail noWriteFaults "cus_new" "s_new" stripeSubNewFix dbFix userFix "p1").snd.activities = dbFix.activities ∧
    (∀ v, (createRoute sfSubCreateFail noWriteFaults "cus_new" "s_new" stripeSubNewFix dbFix userFix "p1").fst ≠ ApiResult.ok v) ∧
    (∀ cid, userFix.stripeCustomerId = some cid →
      (createRoute sfSubCreateFail noWriteFaults "cus_new" "s_new" stripeSubNewFix dbFix userFix "p1").snd = dbFix) :=
  create_remote_failure_no_local_subscription sfSubCreateFail noWriteFaults
    "cus_new" "s_new" stripeSubNewFix dbFix userFix "p1" rfl

/-- Claim C7: a payment outcome whose external subscription reference
matches no local Subscription — or that names no subscription at all —
performs no write: both payment handlers return the store unchanged, and,
being total functions whose source wraps everything in try/catch, raise no
uncaught error. -/
theorem payment_outcome_unknown_subscription_noop (wf : WriteFaults) (now : Int)
    (db : DB) (inv : Invoice)
    (h : ∀ ref, inv.subscription = some ref →
      findSubByStripeId db.subscriptions ref = none) :
    handlePaymentSucceeded wf db inv = db ∧ handlePaymentFailed wf now db inv = db := by
  constructor
  · cases hs : inv.subscription with
    | none => simp [handlePaymentSucceeded, hs]
    | some ref => simp [handlePaymentSucceeded, hs, h ref hs]
  · cases hs : inv.subscription with
    | none => simp [handlePaymentFailed, hs]
    | some ref => simp [handlePaymentFailed, hs, h ref hs]

/-- Witness for C7: `invFix` names `sub_1`, which `dbNoSubs` does not hold. -/
theorem payment_outcome_unknown_subscription_noop_witness :
    handlePaymentSucceeded noWriteFaults dbNoSubs invFix = dbNoSubs ∧
    handlePaymentFailed noWriteFaults 0 dbNoSubs invFix = dbNoSubs :=
  payment_outcome_unknown_subscription_noop noWriteFaults 0 dbNoSubs invFix
    (by intro ref h; simp [invFix] at h; subst h; rfl)

/-- Claim C8: a subscription snapshot whose external reference matches no
local Subscription leaves the persisted state entirely unchanged — no row is
created or modified. -/
theorem snapshot_unknown_subscription_noop (wf : WriteFaults) (db : DB)
    (snap : StripeSubscription)
    (h : findSubByStripeId db.subscriptions snap.id = none) :
    handleSubscriptionUpdate wf db snap = db := by
  simp [handleSubscriptionUpdate, h]

/-- Witness for C8: snapshot `snapFixA` against `dbNoSubs`. -/
theorem snapshot_unknown_subscription_noop_witness :
    handleSubscriptionUpdate noWriteFaults dbNoSubs snapFixA = dbNoSubs :=
  snapshot_unknown_subscription_noop noWriteFaults dbNoSubs snapFixA rfl

/-- Claim C9: the cancel and reactivate lookups are scoped to the requesting
user, and the response is oblivious to every other user's subscriptions: two
stores that agree on the caller's own rows produce identical responses, and
when no row with the requested id belongs to the caller both commands answer
the same NotFound — whether that id exists for a different user or not at
all, cross-user existence never leaks. -/
theorem cross_user_noninterference (db1 db2 : DB) (sf : StripeFaults) (wf : WriteFaults)
    (now : Int) (u sid : String) (cap : Bool)
    (hn1 : (db1.subscriptions.map Subscription.id).Nodup)
    (hn2 : (db2.subscriptions.map Subscription.id).Nodup)
    (hagree : subsOfUser db1.subscriptions u = subsOfUser db2.subscriptions u) :
    (cancelRoute sf wf now db1 u sid cap).fst = (cancelRoute sf wf now db2 u sid cap).fst ∧
    (reactivateRoute sf wf db1 u sid).fst = (reactivateRoute sf wf db2 u sid).fst ∧
    ((∀ s ∈ db1.subscriptions, ¬(s.id = sid ∧ s.userId = u)) →
      (cancelRoute sf wf now db1 u sid cap).fst = ApiResult.notFound "Subscription not found" ∧
      (reactivateRoute sf wf db1 u sid).fst = ApiResult.notFound "Subscription not found") := by
  have hff12 : findFirstSubByIdUser db1.subscriptions sid u
      = findFirstSubByIdUser db2.subscriptions sid u := by
    rw [findFirstSubByIdUser_eq_subsOfUser db1.subscriptions, hagree,
      ← findFirstSubByIdUser_eq_subsOfUser]
  cases hf1 : findFirstSubByIdUser db1.subscriptions sid u with
  | none =>
    have hf2 : findFirstSubByIdUser db2.subscriptions sid u = none := by
      rw [← hff12]; exact hf1
    refine ⟨?_, ?_, fun _ => ⟨?_, ?_⟩⟩
    · simp [cancelRoute, hf1, hf2]
    · simp [reactivateRoute, hf1, hf2]
    · simp [cancelRoute, hf1]
    · simp [reactivateRoute, hf1]
  | some sub =>
    have hf2 : findFirstSubByIdUser db2.subscriptions sid u = some sub := by
      rw [← hff12]; exact hf1
    obtain ⟨hm1, hsid1, hu1⟩ := findFirstSubByIdUser_spec _ _ _ _ hf1
    obtain ⟨hm2, _, _⟩ := findFirstSubByIdUser_spec _ _ _ _ hf2
    have hid1 := findSubByInternalId_of_nodup db1.subscriptions sid sub hn1 hm1 hsid1
    have hid2 := findSubByInternalId_of_nodup db2.subscriptions sid sub hn2 hm2 hsid1
    refine ⟨?_, ?_, fun hnone => absurd ⟨hsid1, hu1⟩ (hnone sub hm1)⟩
    · rw [cancelRoute_fst_found sf wf now db1 u sid cap sub hf1 hid1,
        cancelRoute_fst_found sf wf now db2 u sid cap sub hf2 hid2]
    · rw [reactivateRoute_fst_found sf wf db1 u sid sub hf1 hid1,
        reactivateRoute_fst_found sf wf db2 u sid sub hf2 hid2]

/-- Witness for C9: `dbOtherUser` holds subscription `s9` owned by `u2`;
`dbNoSubs` holds nothing. For caller `u1` both stores answer identically,
and both commands answer NotFound. -/
theorem cross_user_noninterference_witness :
    (cancelRoute noStripeFaults noWriteFaults 0 dbOtherUser "u1" "s9" true).fst
        = (cancelRoute noStripeFaults noWriteFaults 0 dbNoSubs "u1" "s9" true).fst ∧
    (reactivateRoute noStripeFaults noWriteFaults dbOtherUser "u1" "s9").fst
        = (reactivateRoute noStripeFaults noWriteFaults dbNoSubs "u1" "s9").fst ∧
    ((∀ s ∈ dbOtherUser.subscriptions, ¬(s.id = "s9" ∧ s.userId = "u1")) →
      (cancelRoute noStripeFaults noWriteFaults 0 dbOtherUser "u1" "s9" true).fst
          = ApiResult.notFound "Subscription not found" ∧
      (reactivateRoute noStripeFaults noWriteFaults dbOtherUser "u1" "s9").fst
          = ApiResult.notFound "Subscription not found") :=
  cross_user_noninterference dbOtherUser dbNoSubs noStripeFaults noWriteFaults 0 "u1" "s9"
    true (by decide) (by decide) rfl

/-- Claim C10: once the authenticity signature verifies, the webhook route
acknowledges with 200 and received:true for every event and every
combination of storage write faults — each per-event handler catches and
swallows its own errors, so a persistence failure during event application
never surfaces as an error response to the sender. -/
theorem webhook_acks_after_signature (wf : WriteFaults) (now : Int) (db : DB)
    (ev : StripeEvent) :
    (stripeWebhook true wf now db ev).fst = { status := 200, received := true } := rfl

end SaaS
